import Mathlib

/-
Verification of the Sahne/Karnal64 kernel skeleton.

Shallow embedding of:
  * the error-code constants of src/src/karnal64/karnal.h;
  * the dummy console provider of src/main.c
    (dummy_console_read / dummy_console_write / dummy_console_control);
  * the C++ console device of src/src/karnal64/main.cpp
    (KernelConsoleDevice::Read / Write / Control) and its C wrappers;
  * the startup sequences of the two kernel entry points (void main() in
    src/main.c and in src/src/karnal64/main.cpp), as small-step state
    machines over program points, emitting the externally observable
    boot calls as events.

Modelling conventions:
  * byte buffers are `Option (List Nat)`: `none` is a NULL pointer, and
    `some bs` a non-null buffer whose bytes are `bs` (each < 256 in any
    real execution; nothing below depends on that bound);
  * `size_t`/`uint64_t` arguments are `Nat`; `int64_t` results are `Int`,
    with the C cast `(int64_t)size` made explicit by `toInt64`;
  * the characters handed to `low_level_console_putc` by a write call are
    collected, in call order, into a trace list (the debug `printf` in
    `dummy_console_write` is not a `low_level_console_putc` call and
    does not appear in the trace);
  * `dummy_console_write` has no NULL-pointer guard in the source, so its
    model takes the pointed-to byte list directly: calling it with a NULL
    buffer and size > 0 would be undefined behaviour in C.
-/

/-- Error constants from karnal.h. `KSUCCESS` is the success code. -/
def KSUCCESS : Int := 0

def KERROR_PERMISSION_DENIED : Int := -1

def KERROR_NOT_FOUND : Int := -2

def KERROR_INVALID_ARGUMENT : Int := -3

def KERROR_INTERRUPTED : Int := -4

def KERROR_BAD_HANDLE : Int := -9

def KERROR_BUSY : Int := -11

def KERROR_OUT_OF_MEMORY : Int := -12

def KERROR_BAD_ADDRESS : Int := -14

def KERROR_ALREADY_EXISTS : Int := -17

def KERROR_NOT_SUPPORTED : Int := -38

def KERROR_NO_MESSAGE : Int := -61

def KERROR_INTERNAL_ERROR : Int := -255

/-- The twelve error constants of karnal.h, in declaration order. -/
def kerrorConstants : List Int :=
  [KERROR_PERMISSION_DENIED, KERROR_NOT_FOUND, KERROR_INVALID_ARGUMENT,
   KERROR_INTERRUPTED, KERROR_BAD_HANDLE, KERROR_BUSY, KERROR_OUT_OF_MEMORY,
   KERROR_BAD_ADDRESS, KERROR_ALREADY_EXISTS, KERROR_NOT_SUPPORTED,
   KERROR_NO_MESSAGE, KERROR_INTERNAL_ERROR]

/-- Two's-complement value of a `size_t` (`Nat`) cast to `int64_t`,
as in the C expression `(int64_t)size`. -/
def toInt64 (n : Nat) : Int :=
  if n % 2 ^ 64 < 2 ^ 63 then ((n % 2 ^ 64 : Nat) : Int)
  else ((n % 2 ^ 64 : Nat) : Int) - 2 ^ 64

/-- The sequence of bytes `buffer[0], ..., buffer[size-1]` passed, in
order, to `low_level_console_putc` by the write loops
`for (i = 0; i < size; ++i) low_level_console_putc(buffer[i]);`. -/
def putcTrace (buffer : List Nat) (size : Nat) : List Nat :=
  (List.range size).map fun i => buffer.getD i 0

/-- State of the dummy console driver of src/main.c
(`struct DummyConsoleState`). -/
structure DummyConsoleState where
  dummy_status : Int
deriving DecidableEq

/-- dummy_console_read of src/main.c. Returns the `int64_t` result, the
updated driver state, and the buffer after the call. -/
def dummy_console_read (state : DummyConsoleState) (buffer : Option (List Nat))
    (size : Nat) (offset : Nat) : Int × DummyConsoleState × Option (List Nat) :=
  if size = 0 then (0, state, buffer)
  else
    match buffer with
    | none => (KERROR_INVALID_ARGUMENT, state, none)
    | some bs => (1, ⟨1⟩, some (bs.set 0 65))

/-- dummy_console_write of src/main.c. Returns the `int64_t` result, the
updated driver state, and the trace of bytes emitted one at a time via
`low_level_console_putc`. There is no size-0 or NULL guard in the source:
the loop simply runs `size` times over the pointed-to bytes. -/
def dummy_console_write (state : DummyConsoleState) (buffer : List Nat)
    (size : Nat) (offset : Nat) : Int × DummyConsoleState × List Nat :=
  (toInt64 size, ⟨2⟩, putcTrace buffer size)

/-- dummy_console_control of src/main.c: sets `dummy_status = 3` and
returns 0 unconditionally. -/
def dummy_console_control (state : DummyConsoleState) (request : Nat)
    (arg : Nat) : Int × DummyConsoleState :=
  (0, ⟨3⟩)

namespace Kernel

/-- C++ class KernelConsoleDevice of src/src/karnal64/main.cpp
(field `internal_state`). -/
structure KernelConsoleDevice where
  internal_state : Int
deriving DecidableEq

/-- KernelConsoleDevice::Read. Size-0 check first, then NULL check, then
`buffer[0] = 'B'; internal_state = 2; return 1;`. -/
def KernelConsoleDevice.Read (d : KernelConsoleDevice) (buffer : Option (List Nat))
    (size : Nat) (offset : Nat) : Int × KernelConsoleDevice × Option (List Nat) :=
  if size = 0 then (KSUCCESS, d, buffer)
  else
    match buffer with
    | none => (KERROR_INVALID_ARGUMENT, d, none)
    | some bs => (1, ⟨2⟩, some (bs.set 0 66))

/-- KernelConsoleDevice::Write. Size-0 check first, then NULL check, then
the `low_level_console_putc` loop, `internal_state = 3`, and
`return (int64_t)size;`. The third component is the putc trace. -/
def KernelConsoleDevice.Write (d : KernelConsoleDevice) (buffer : Option (List Nat))
    (size : Nat) (offset : Nat) : Int × KernelConsoleDevice × List Nat :=
  if size = 0 then (KSUCCESS, d, [])
  else
    match buffer with
    | none => (KERROR_INVALID_ARGUMENT, d, [])
    | some bs => (toInt64 size, ⟨3⟩, putcTrace bs size)

/-- KernelConsoleDevice::Control: sets `internal_state = 4` and returns
KSUCCESS unconditionally. -/
def KernelConsoleDevice.Control (d : KernelConsoleDevice) (request : Nat)
    (arg : Nat) : Int × KernelConsoleDevice :=
  (KSUCCESS, ⟨4⟩)

/-- kernel_console_read_wrapper of src/src/karnal64/main.cpp: casts
`provider_data` back to the device and returns `device->Read(...)`. -/
def kernel_console_read_wrapper (provider_data : KernelConsoleDevice)
    (buffer : Option (List Nat)) (size : Nat) (offset : Nat) :
    Int × KernelConsoleDevice × Option (List Nat) :=
  provider_data.Read buffer size offset

/-- kernel_console_write_wrapper: delegates to `device->Write(...)`. -/
def kernel_console_write_wrapper (provider_data : KernelConsoleDevice)
    (buffer : Option (List Nat)) (size : Nat) (offset : Nat) :
    Int × KernelConsoleDevice × List Nat :=
  provider_data.Write buffer size offset

/-- kernel_console_control_wrapper: delegates to `device->Control(...)`. -/
def kernel_console_control_wrapper (provider_data : KernelConsoleDevice)
    (request : Nat) (arg : Nat) : Int × KernelConsoleDevice :=
  provider_data.Control request arg

end Kernel

/-- Externally observable calls made by the kernel entry points during
startup. `putc c` is a direct `low_level_console_putc(c)` call from
`main` itself; `registerProvider` is the
`karnal_resource_register_c_provider` call for `karnal://device/console`;
`taskSpawn` is the `karnal_task_spawn` call for the initial task. -/
inductive BootEvent where
  | hardwareInit
  | memoryInit
  | interruptInit
  | timerInit
  | karnalInit
  | registerProvider
  | taskSpawn
  | putc (c : Nat)
deriving DecidableEq

/-- Program points of `void main()` in src/main.c. `registerFailLoop` and
`spawnFailLoop` are the `while(1);` bodies of the two error branches;
`idleLoop` is the final idle section (the `karnal_scheduler_start()` /
`low_power_idle_loop()` placeholders followed by `while(1) {}`), none of
which performs any of the tracked boot calls; `returned` stands for the
unreachable code after the idle loop (` return 0;`). -/
inductive CProgramPoint where
  | start
  | afterHwInit
  | afterMemInit
  | afterKarnalInit
  | afterRegister
  | registerFailLoop
  | afterSpawn
  | spawnFailLoop
  | idleLoop
  | returned
deriving DecidableEq

/-- One step of `void main()` in src/main.c, parametrised by the results
`reg` of `karnal_resource_register_c_provider` and `spawn` of
`karnal_task_spawn` (both external to this repository). Each step yields
the next program point and the boot calls performed by the executed
statement(s). -/
def cMainStep (reg spawn : Int) : CProgramPoint → CProgramPoint × List BootEvent
  | .start => (.afterHwInit, [.hardwareInit])
  | .afterHwInit => (.afterMemInit, [.memoryInit])
  | .afterMemInit => (.afterKarnalInit, [.karnalInit])
  | .afterKarnalInit => (.afterRegister, [.registerProvider])
  | .afterRegister =>
      if reg < 0 then (.registerFailLoop, []) else (.afterSpawn, [.taskSpawn])
  | .registerFailLoop => (.registerFailLoop, [])
  | .afterSpawn =>
      if spawn < 0 then (.spawnFailLoop, []) else (.idleLoop, [])
  | .spawnFailLoop => (.spawnFailLoop, [])
  | .idleLoop => (.idleLoop, [])
  | .returned => (.returned, [])

/-- Running `n` steps of the src/main.c entry point from program point
`p`: final program point and concatenated event trace. -/
def cMainRun (reg spawn : Int) : Nat → CProgramPoint → CProgramPoint × List BootEvent
  | 0, p => (p, [])
  | n + 1, p =>
      let s := cMainStep reg spawn p
      let r := cMainRun reg spawn n s.1
      (r.1, s.2 ++ r.2)

/-- Program points of `void main()` in src/src/karnal64/main.cpp. This
entry point additionally executes `low_level_console_putc('>')` (the boot
marker, 62 = ASCII of the greater-than sign) between memory init and
`karnal_init`. -/
inductive CppProgramPoint where
  | start
  | afterHwInit
  | afterMemInit
  | afterBootMark
  | afterKarnalInit
  | afterRegister
  | registerFailLoop
  | afterSpawn
  | spawnFailLoop
  | idleLoop
  | returned
deriving DecidableEq

/-- One step of `void main()` in src/src/karnal64/main.cpp. -/
def cppMainStep (reg spawn : Int) :
    CppProgramPoint → CppProgramPoint × List BootEvent
  | .start => (.afterHwInit, [.hardwareInit])
  | .afterHwInit => (.afterMemInit, [.memoryInit])
  | .afterMemInit => (.afterBootMark, [.putc 62])
  | .afterBootMark => (.afterKarnalInit, [.karnalInit])
  | .afterKarnalInit => (.afterRegister, [.registerProvider])
  | .afterRegister =>
      if reg < 0 then (.registerFailLoop, []) else (.afterSpawn, [.taskSpawn])
  | .registerFailLoop => (.registerFailLoop, [])
  | .afterSpawn =>
      if spawn < 0 then (.spawnFailLoop, []) else (.idleLoop, [])
  | .spawnFailLoop => (.spawnFailLoop, [])
  | .idleLoop => (.idleLoop, [])
  | .returned => (.returned, [])

/-- Running `n` steps of the src/src/karnal64/main.cpp entry point. -/
def cppMainRun (reg spawn : Int) :
    Nat → CppProgramPoint → CppProgramPoint × List BootEvent
  | 0, p => (p, [])
  | n + 1, p =>
      let s := cppMainStep reg spawn p
      let r := cppMainRun reg spawn n s.1
      (r.1, s.2 ++ r.2)

/-- On a buffer of exactly `size` bytes the putc loop emits the whole
buffer, in order. -/
theorem putcTrace_length (bs : List Nat) : putcTrace bs bs.length = bs := by
  induction bs with
  | nil => rfl
  | cons a t ih =>
    unfold putcTrace at ih ⊢
    rw [List.length_cons, List.range_succ_eq_map, List.map_cons, List.map_map,
      List.getD_cons_zero]
    refine congrArg (a :: ·) ?_
    simpa [Function.comp_def, Nat.succ_eq_add_one, List.getD_cons_succ] using ih

/-- Casting a `size_t` below `2^63` to `int64_t` is the identity. -/
theorem toInt64_of_lt {n : Nat} (h : n < 2 ^ 63) : toInt64 n = n := by
  have h64 : n < 2 ^ 64 := lt_of_lt_of_le h (by norm_num)
  unfold toInt64
  rw [Nat.mod_eq_of_lt h64, if_pos h]

/-- A program point whose step is a silent self-loop stays there forever,
emitting nothing (src/main.c machine). -/
theorem cMainRun_absorb (reg spawn : Int) (p : CProgramPoint)
    (h : cMainStep reg spawn p = (p, [])) (n : Nat) :
    cMainRun reg spawn n p = (p, []) := by
  induction n with
  | zero => rfl
  | succ n ih => simp [cMainRun, h, ih]

/-- The `while(1);` of the failed-registration branch never leaves. -/
theorem cMainRun_registerFailLoop (reg spawn : Int) (n : Nat) :
    cMainRun reg spawn n .registerFailLoop = (.registerFailLoop, []) :=
  cMainRun_absorb reg spawn _ rfl n

/-- The `while(1);` of the failed-spawn branch never leaves. -/
theorem cMainRun_spawnFailLoop (reg spawn : Int) (n : Nat) :
    cMainRun reg spawn n .spawnFailLoop = (.spawnFailLoop, []) :=
  cMainRun_absorb reg spawn _ rfl n

/-- The final idle loop of src/main.c never leaves and emits nothing. -/
theorem cMainRun_idleLoop (reg spawn : Int) (n : Nat) :
    cMainRun reg spawn n .idleLoop = (.idleLoop, []) :=
  cMainRun_absorb reg spawn _ rfl n

/-- No single step of the src/main.c machine reaches `returned` from any
other program point. -/
theorem cMainStep_ne_returned (reg spawn : Int) (p : CProgramPoint)
    (h : p ≠ CProgramPoint.returned) :
    (cMainStep reg spawn p).1 ≠ CProgramPoint.returned := by
  cases p <;> simp_all [cMainStep] <;> split <;> simp

/-- No run of the src/main.c machine reaches `returned` from any other
program point. -/
theorem cMainRun_ne_returned (reg spawn : Int) (n : Nat) (p : CProgramPoint)
    (h : p ≠ CProgramPoint.returned) :
    (cMainRun reg spawn n p).1 ≠ CProgramPoint.returned := by
  induction n generalizing p with
  | zero => simpa [cMainRun] using h
  | succ n ih =>
    have h' := cMainStep_ne_returned reg spawn p h
    simpa [cMainRun] using ih _ h'

/-- Absorbing-state lemma for the src/src/karnal64/main.cpp machine. -/
theorem cppMainRun_absorb (reg spawn : Int) (p : CppProgramPoint)
    (h : cppMainStep reg spawn p = (p, [])) (n : Nat) :
    cppMainRun reg spawn n p = (p, []) := by
  induction n with
  | zero => rfl
  | succ n ih => simp [cppMainRun, h, ih]

/-- The `while(1);` of the failed-registration branch (C++ entry). -/
theorem cppMainRun_registerFailLoop (reg spawn : Int) (n : Nat) :
    cppMainRun reg spawn n .registerFailLoop = (.registerFailLoop, []) :=
  cppMainRun_absorb reg spawn _ rfl n

/-- The `while(1);` of the failed-spawn branch (C++ entry). -/
theorem cppMainRun_spawnFailLoop (reg spawn : Int) (n : Nat) :
    cppMainRun reg spawn n .spawnFailLoop = (.spawnFailLoop, []) :=
  cppMainRun_absorb reg spawn _ rfl n

/-- The final idle loop of the C++ entry never leaves, emits nothing. -/
theorem cppMainRun_idleLoop (reg spawn : Int) (n : Nat) :
    cppMainRun reg spawn n .idleLoop = (.idleLoop, []) :=
  cppMainRun_absorb reg spawn _ rfl n

/-- No single step of the C++ machine reaches `returned` from any other
program point. -/
theorem cppMainStep_ne_returned (reg spawn : Int) (p : CppProgramPoint)
    (h : p ≠ CppProgramPoint.returned) :
    (cppMainStep reg spawn p).1 ≠ CppProgramPoint.returned := by
  cases p <;> simp_all [cppMainStep] <;> split <;> simp

/-- No run of the C++ machine reaches `returned` from any other point. -/
theorem cppMainRun_ne_returned (reg spawn : Int) (n : Nat) (p : CppProgramPoint)
    (h : p ≠ CppProgramPoint.returned) :
    (cppMainRun reg spawn n p).1 ≠ CppProgramPoint.returned := by
  induction n generalizing p with
  | zero => simpa [cppMainRun] using h
  | succ n ih =>
    have h' := cppMainStep_ne_returned reg spawn p h
    simpa [cppMainRun] using ih _ h'

/-- Startup trace of src/main.c when registration fails. -/
theorem cMainRun_six_regFail (reg spawn : Int) (hr : reg < 0) :
    cMainRun reg spawn 6 .start =
      (.registerFailLoop,
       [.hardwareInit, .memoryInit, .karnalInit, .registerProvider]) := by
  simp [cMainRun, cMainStep, hr]

/-- Startup trace of src/main.c when registration succeeds and spawn
fails. -/
theorem cMainRun_six_spawnFail (reg spawn : Int) (hr : 0 ≤ reg)
    (hs : spawn < 0) :
    cMainRun reg spawn 6 .start =
      (.spawnFailLoop,
       [.hardwareInit, .memoryInit, .karnalInit, .registerProvider,
        .taskSpawn]) := by
  have hr' : ¬ reg < 0 := not_lt.mpr hr
  simp [cMainRun, cMainStep, hr', hs]

/-- Startup trace of src/main.c when registration and spawn succeed. -/
theorem cMainRun_six_ok (reg spawn : Int) (hr : 0 ≤ reg) (hs : 0 ≤ spawn) :
    cMainRun reg spawn 6 .start =
      (.idleLoop,
       [.hardwareInit, .memoryInit, .karnalInit, .registerProvider,
        .taskSpawn]) := by
  have hr' : ¬ reg < 0 := not_lt.mpr hr
  have hs' : ¬ spawn < 0 := not_lt.mpr hs
  simp [cMainRun, cMainStep, hr', hs']

/-- Startup trace of the C++ entry when registration fails. -/
theorem cppMainRun_seven_regFail (reg spawn : Int) (hr : reg < 0) :
    cppMainRun reg spawn 7 .start =
      (.registerFailLoop,
       [.hardwareInit, .memoryInit, .putc 62, .karnalInit,
        .registerProvider]) := by
  simp [cppMainRun, cppMainStep, hr]

/-- Startup trace of the C++ entry when registration succeeds and spawn
fails. -/
theorem cppMainRun_seven_spawnFail (reg spawn : Int) (hr : 0 ≤ reg)
    (hs : spawn < 0) :
    cppMainRun reg spawn 7 .start =
      (.spawnFailLoop,
       [.hardwareInit, .memoryInit, .putc 62, .karnalInit,
        .registerProvider, .taskSpawn]) := by
  have hr' : ¬ reg < 0 := not_lt.mpr hr
  simp [cppMainRun, cppMainStep, hr', hs]

/-- Startup trace of the C++ entry when registration and spawn succeed. -/
theorem cppMainRun_seven_ok (reg spawn : Int) (hr : 0 ≤ reg)
    (hs : 0 ≤ spawn) :
    cppMainRun reg spawn 7 .start =
      (.idleLoop,
       [.hardwareInit, .memoryInit, .putc 62, .karnalInit,
        .registerProvider, .taskSpawn]) := by
  have hr' : ¬ reg < 0 := not_lt.mpr hr
  have hs' : ¬ spawn < 0 := not_lt.mpr hs
  simp [cppMainRun, cppMainStep, hr', hs']

/-- KernelConsoleDevice::Write on a non-null buffer with non-zero size
takes the putc-loop branch. -/
theorem kernelWrite_some_of_ne (d : Kernel.KernelConsoleDevice)
    (bs : List Nat) (size off : Nat) (h : size ≠ 0) :
    Kernel.KernelConsoleDevice.Write d (some bs) size off =
      (toInt64 size, ⟨3⟩, putcTrace bs size) := by
  simp [Kernel.KernelConsoleDevice.Write, h]

/-- C1: for every non-null buffer of length n, each console provider's
write called with size n returns n and emits exactly the bytes
buffer[0], ..., buffer[n-1], one at a time and in order, via
low_level_console_putc. -/
theorem claim1_console_write_emits_buffer (st : DummyConsoleState)
    (d : Kernel.KernelConsoleDevice) (bs : List Nat) (off : Nat)
    (h : bs.length < 2 ^ 63) :
    dummy_console_write st bs bs.length off = ((bs.length : Int), ⟨2⟩, bs) ∧
      (Kernel.KernelConsoleDevice.Write d (some bs) bs.length off).1 =
        (bs.length : Int) ∧
      (Kernel.KernelConsoleDevice.Write d (some bs) bs.length off).2.2 = bs := by
  refine ⟨?_, ?_, ?_⟩
  · simp [dummy_console_write, toInt64_of_lt h, putcTrace_length]
  · rcases Nat.eq_zero_or_pos bs.length with hz | hp
    · obtain rfl : bs = [] := List.length_eq_zero.mp hz
      simp [Kernel.KernelConsoleDevice.Write, KSUCCESS]
    · rw [kernelWrite_some_of_ne d bs bs.length off (by omega)]
      exact toInt64_of_lt h
  · rcases Nat.eq_zero_or_pos bs.length with hz | hp
    · obtain rfl : bs = [] := List.length_eq_zero.mp hz
      simp [Kernel.KernelConsoleDevice.Write]
    · rw [kernelWrite_some_of_ne d bs bs.length off (by omega)]
      exact putcTrace_length bs

/-- C1 witness: the 2-byte buffer "hi" (bytes 104, 105): write returns 2
and the putc trace is exactly 'h' then 'i'. -/
theorem claim1_witness :
    ([104, 105] : List Nat).length < 2 ^ 63 ∧
      (dummy_console_write ⟨0⟩ [104, 105] ([104, 105] : List Nat).length 0 =
          ((([104, 105] : List Nat).length : Int), ⟨2⟩, [104, 105]) ∧
        (Kernel.KernelConsoleDevice.Write ⟨0⟩ (some [104, 105])
              ([104, 105] : List Nat).length 0).1 =
          (([104, 105] : List Nat).length : Int) ∧
        (Kernel.KernelConsoleDevice.Write ⟨0⟩ (some [104, 105])
              ([104, 105] : List Nat).length 0).2.2 = [104, 105]) :=
  ⟨by decide, claim1_console_write_emits_buffer ⟨0⟩ ⟨0⟩ [104, 105] 0 (by decide)⟩

/-- C2 counterexample: on the concrete startup in which registration and
spawn both return 0, the complete startup trace of the src/main.c entry
point does not contain exactly one low_level_interrupt_init call — the
hook is never invoked, so the claim as stated is false. -/
theorem claim2_counterexample :
    ¬ ((cMainRun 0 0 6 CProgramPoint.start).2.count
        BootEvent.interruptInit = 1) := by
  decide

/-- C2 (amended): during startup, each entry point invokes
low_level_hardware_init exactly once, as the first boot call, before the
memory-manager initialization (low_level_memory_init) and before
karnal_init; low_level_interrupt_init and low_level_timer_init are never
invoked. After the straight-line startup prefix the machine is in a
silent self-loop, so the traces shown are complete. -/
theorem claim2_boot_hooks (reg spawn : Int) :
    (cMainRun reg spawn 6 .start).2.take 3 =
        [BootEvent.hardwareInit, BootEvent.memoryInit, BootEvent.karnalInit] ∧
      (cMainRun reg spawn 6 .start).2.count BootEvent.hardwareInit = 1 ∧
      (cMainRun reg spawn 6 .start).2.count BootEvent.interruptInit = 0 ∧
      (cMainRun reg spawn 6 .start).2.count BootEvent.timerInit = 0 ∧
      (∀ n, cMainRun reg spawn n (cMainRun reg spawn 6 .start).1 =
        ((cMainRun reg spawn 6 .start).1, [])) ∧
      (cppMainRun reg spawn 7 .start).2.take 4 =
        [BootEvent.hardwareInit, BootEvent.memoryInit, BootEvent.putc 62,
         BootEvent.karnalInit] ∧
      (cppMainRun reg spawn 7 .start).2.count BootEvent.hardwareInit = 1 ∧
      (cppMainRun reg spawn 7 .start).2.count BootEvent.interruptInit = 0 ∧
      (cppMainRun reg spawn 7 .start).2.count BootEvent.timerInit = 0 ∧
      ∀ n, cppMainRun reg spawn n (cppMainRun reg spawn 7 .start).1 =
        ((cppMainRun reg spawn 7 .start).1, []) := by
  rcases lt_or_le reg 0 with hr | hr
  · rw [cMainRun_six_regFail reg spawn hr, cppMainRun_seven_regFail reg spawn hr]
    exact ⟨by decide, by decide, by decide, by decide,
      fun n => cMainRun_registerFailLoop reg spawn n,
      by decide, by decide, by decide, by decide,
      fun n => cppMainRun_registerFailLoop reg spawn n⟩
  · rcases lt_or_le spawn 0 with hs | hs
    · rw [cMainRun_six_spawnFail reg spawn hr hs,
        cppMainRun_seven_spawnFail reg spawn hr hs]
      exact ⟨by decide, by decide, by decide, by decide,
        fun n => cMainRun_spawnFailLoop reg spawn n,
        by decide, by decide, by decide, by decide,
        fun n => cppMainRun_spawnFailLoop reg spawn n⟩
    · rw [cMainRun_six_ok reg spawn hr hs, cppMainRun_seven_ok reg spawn hr hs]
      exact ⟨by decide, by decide, by decide, by decide,
        fun n => cMainRun_idleLoop reg spawn n,
        by decide, by decide, by decide, by decide,
        fun n => cppMainRun_idleLoop reg spawn n⟩

/-- C3: the twelve error kinds of karnal.h are encoded as strictly
negative, pairwise distinct int64 constants, success (KSUCCESS) is
non-negative, and no error constant equals any non-negative success
value. -/
theorem claim3_error_taxonomy :
    kerrorConstants.length = 12 ∧ kerrorConstants.Nodup ∧
      (∀ e ∈ kerrorConstants, e < 0) ∧ 0 ≤ KSUCCESS ∧
      ∀ e ∈ kerrorConstants, ∀ s : Int, 0 ≤ s → e ≠ s := by
  refine ⟨by decide, by decide, by decide, by decide, ?_⟩
  intro e he s hs
  have hall : ∀ x ∈ kerrorConstants, x < 0 := by decide
  have hneg := hall e he
  omega

/-- C4: each C wrapper of src/src/karnal64/main.cpp returns exactly the
value returned by the corresponding KernelConsoleDevice method called
with the same arguments — no retry, no reinterpretation. -/
theorem claim4_wrappers_pass_through (d : Kernel.KernelConsoleDevice)
    (buffer : Option (List Nat)) (size off request arg : Nat) :
    Kernel.kernel_console_read_wrapper d buffer size off =
        Kernel.KernelConsoleDevice.Read d buffer size off ∧
      Kernel.kernel_console_write_wrapper d buffer size off =
        Kernel.KernelConsoleDevice.Write d buffer size off ∧
      Kernel.kernel_console_control_wrapper d request arg =
        Kernel.KernelConsoleDevice.Control d request arg :=
  ⟨rfl, rfl, rfl⟩

/-- C5: when registration and spawn both return non-negative values, each
entry point calls karnal_init first, then registers the console provider,
then spawns the initial task, and only then enters the idle loop, which
is a silent self-loop. -/
theorem claim5_startup_order (reg spawn : Int) (hr : 0 ≤ reg)
    (hs : 0 ≤ spawn) :
    cMainRun reg spawn 6 .start =
        (.idleLoop,
         [.hardwareInit, .memoryInit, .karnalInit, .registerProvider,
          .taskSpawn]) ∧
      cMainStep reg spawn .idleLoop = (.idleLoop, []) ∧
      cppMainRun reg spawn 7 .start =
        (.idleLoop,
         [.hardwareInit, .memoryInit, .putc 62, .karnalInit,
          .registerProvider, .taskSpawn]) ∧
      cppMainStep reg spawn .idleLoop = (.idleLoop, []) :=
  ⟨cMainRun_six_ok reg spawn hr hs, rfl,
   cppMainRun_seven_ok reg spawn hr hs, rfl⟩

/-- C5 witness: concrete successful startup with registration result 0
and spawn result 0. -/
theorem claim5_witness :
    (0 : Int) ≤ 0 ∧ (0 : Int) ≤ 0 ∧
      (cMainRun 0 0 6 .start =
          (.idleLoop,
           [.hardwareInit, .memoryInit, .karnalInit, .registerProvider,
            .taskSpawn]) ∧
        cMainStep 0 0 .idleLoop = (.idleLoop, []) ∧
        cppMainRun 0 0 7 .start =
          (.idleLoop,
           [.hardwareInit, .memoryInit, .putc 62, .karnalInit,
            .registerProvider, .taskSpawn]) ∧
        cppMainStep 0 0 .idleLoop = (.idleLoop, [])) :=
  ⟨by decide, by decide, claim5_startup_order 0 0 (by decide) (by decide)⟩

/-- C6: each console provider's read returns either a negative error code
or a count c with 0 ≤ c ≤ size, for every buffer (null or not), size and
offset. -/
theorem claim6_read_count_bounded (st : DummyConsoleState)
    (d : Kernel.KernelConsoleDevice) (buffer : Option (List Nat))
    (size off : Nat) :
    ((dummy_console_read st buffer size off).1 < 0 ∨
        (0 ≤ (dummy_console_read st buffer size off).1 ∧
          (dummy_console_read st buffer size off).1 ≤ (size : Int))) ∧
      ((Kernel.KernelConsoleDevice.Read d buffer size off).1 < 0 ∨
        (0 ≤ (Kernel.KernelConsoleDevice.Read d buffer size off).1 ∧
          (Kernel.KernelConsoleDevice.Read d buffer size off).1 ≤ (size : Int))) := by
  rcases Nat.eq_zero_or_pos size with hz | hp
  · subst hz
    simp [dummy_console_read, Kernel.KernelConsoleDevice.Read, KSUCCESS]
  · have hnz : size ≠ 0 := Nat.pos_iff_ne_zero.mp hp
    cases buffer with
    | none =>
      simp [dummy_console_read, Kernel.KernelConsoleDevice.Read, hnz,
        KERROR_INVALID_ARGUMENT]
    | some bs =>
      have h1 : (1 : Int) ≤ (size : Int) := by exact_mod_cast hp
      simp [dummy_console_read, Kernel.KernelConsoleDevice.Read, hnz]
      omega

/-- C7: once an entry point reaches the final idle loop (which it does
after successful registration and spawn), it stays in the idle loop at
every later step and the program point after the loop (`returned`) is
never reached on any execution. -/
theorem claim7_idle_loop_never_returns (reg spawn : Int) (n : Nat)
    (hr : 0 ≤ reg) (hs : 0 ≤ spawn) :
    (cMainRun reg spawn 6 .start).1 = .idleLoop ∧
      (cMainRun reg spawn n .idleLoop).1 = .idleLoop ∧
      (cMainRun reg spawn n .start).1 ≠ .returned ∧
      (cppMainRun reg spawn 7 .start).1 = .idleLoop ∧
      (cppMainRun reg spawn n .idleLoop).1 = .idleLoop ∧
      (cppMainRun reg spawn n .start).1 ≠ .returned := by
  refine ⟨by rw [cMainRun_six_ok reg spawn hr hs],
    by rw [cMainRun_idleLoop reg spawn n],
    cMainRun_ne_returned reg spawn n _ (by decide),
    by rw [cppMainRun_seven_ok reg spawn hr hs],
    by rw [cppMainRun_idleLoop reg spawn n],
    cppMainRun_ne_returned reg spawn n _ (by decide)⟩

/-- C7 witness: concrete successful startup, 9 steps. -/
theorem claim7_witness :
    (0 : Int) ≤ 0 ∧ (0 : Int) ≤ 0 ∧
      ((cMainRun 0 0 6 .start).1 = .idleLoop ∧
        (cMainRun 0 0 9 .idleLoop).1 = .idleLoop ∧
        (cMainRun 0 0 9 .start).1 ≠ .returned ∧
        (cppMainRun 0 0 7 .start).1 = .idleLoop ∧
        (cppMainRun 0 0 9 .idleLoop).1 = .idleLoop ∧
        (cppMainRun 0 0 9 .start).1 ≠ .returned) :=
  ⟨by decide, by decide,
   claim7_idle_loop_never_returns 0 0 9 (by decide) (by decide)⟩

/-- C8: for size ≥ 1 and a non-null, non-empty buffer,
dummy_console_read writes exactly one byte 'A' (65) into buffer[0],
leaves every other byte unchanged (the tail of the buffer is untouched),
sets the driver status to 1 and returns 1. -/
theorem claim8_read_frame (st : DummyConsoleState) (bs : List Nat)
    (size off : Nat) (h1 : 1 ≤ size) (h2 : 1 ≤ bs.length) :
    dummy_console_read st (some bs) size off = (1, ⟨1⟩, some (bs.set 0 65)) ∧
      (bs.set 0 65).length = bs.length ∧
      (bs.set 0 65).headD 0 = 65 ∧
      (bs.set 0 65).tail = bs.tail := by
  have hnz : size ≠ 0 := by omega
  cases bs with
  | nil => simp at h2
  | cons a t =>
    refine ⟨?_, by simp, by simp, by simp⟩
    simp [dummy_console_read, hnz]

/-- C8 witness: buffer [7, 8, 9] with size 2: result is
(1, status 1, [65, 8, 9]). -/
theorem claim8_witness :
    1 ≤ 2 ∧ 1 ≤ ([7, 8, 9] : List Nat).length ∧
      (dummy_console_read ⟨0⟩ (some [7, 8, 9]) 2 0 =
          (1, ⟨1⟩, some (([7, 8, 9] : List Nat).set 0 65)) ∧
        (([7, 8, 9] : List Nat).set 0 65).length = ([7, 8, 9] : List Nat).length ∧
        (([7, 8, 9] : List Nat).set 0 65).headD 0 = 65 ∧
        (([7, 8, 9] : List Nat).set 0 65).tail = ([7, 8, 9] : List Nat).tail) :=
  ⟨by decide, by decide, claim8_read_frame ⟨0⟩ [7, 8, 9] 2 0 (by decide) (by decide)⟩

/-- C9: with size 0 both console reads return 0 immediately and leave the
buffer untouched — in particular a null buffer with size 0 succeeds —
while the KERROR_INVALID_ARGUMENT null-buffer rejection fires only for
size ≥ 1. -/
theorem claim9_size_zero_before_null_check (st : DummyConsoleState)
    (d : Kernel.KernelConsoleDevice) (buffer : Option (List Nat))
    (size off : Nat) (h : 1 ≤ size) :
    dummy_console_read st buffer 0 off = (0, st, buffer) ∧
      Kernel.KernelConsoleDevice.Read d buffer 0 off = (KSUCCESS, d, buffer) ∧
      dummy_console_read st none size off = (KERROR_INVALID_ARGUMENT, st, none) ∧
      Kernel.KernelConsoleDevice.Read d none size off =
        (KERROR_INVALID_ARGUMENT, d, none) := by
  have hnz : size ≠ 0 := by omega
  refine ⟨by simp [dummy_console_read],
    by simp [Kernel.KernelConsoleDevice.Read],
    by simp [dummy_console_read, hnz],
    by simp [Kernel.KernelConsoleDevice.Read, hnz]⟩

/-- C9 witness: null buffer, size 0 succeeds with 0; null buffer, size 1
is rejected with KERROR_INVALID_ARGUMENT. -/
theorem claim9_witness :
    1 ≤ 1 ∧
      (dummy_console_read ⟨0⟩ none 0 0 = (0, ⟨0⟩, none) ∧
        Kernel.KernelConsoleDevice.Read ⟨0⟩ none 0 0 = (KSUCCESS, ⟨0⟩, none) ∧
        dummy_console_read ⟨0⟩ none 1 0 = (KERROR_INVALID_ARGUMENT, ⟨0⟩, none) ∧
        Kernel.KernelConsoleDevice.Read ⟨0⟩ none 1 0 =
          (KERROR_INVALID_ARGUMENT, ⟨0⟩, none)) :=
  ⟨by decide, claim9_size_zero_before_null_check ⟨0⟩ ⟨0⟩ none 1 0 (by decide)⟩

/-- C10: both console providers' control operations return 0 (success)
for every request and argument. -/
theorem claim10_control_always_succeeds (st : DummyConsoleState)
    (d : Kernel.KernelConsoleDevice) (request arg : Nat) :
    (dummy_console_control st request arg).1 = 0 ∧
      (Kernel.KernelConsoleDevice.Control d request arg).1 = 0 :=
  ⟨rfl, rfl⟩
